import Mathlib

/-!
Shallow embedding of the ChatZBible retrieval-augmented answering pipeline:
the corpus loader and fallback seeder (src/data/bible_seeder.py), the
document builder and its two static lookup tables
(src/utils/document_processor.py), and the query-time engine operations
(src/core/rag_engine.py): context formatting, vector-store creation, and
the whole-response and streaming question paths.

Machine integers of the source are Nat here (chapter and verse numbers come
from JSON and are small positive counts); Python dictionaries with a fixed
field set become structures; a Python function that can raise becomes a
function into Except; the external collaborators (text splitter, retriever,
prompt template, remote model) are parameters, since the pipeline code
treats them as opaque callables.
-/

namespace ChatZBible

/-- A flat verse record as built by the loader loops of bible_seeder.py:
the dictionary with keys book, chapter, verse, text, translation. The
translation key may be absent in a general input record (the document
builder reads it with a defaulted get), hence Option; both loaders always
set it to "KJV". -/
structure VerseRecord where
  book : String
  chapter : Nat
  verse : Nat
  text : String
  translation : Option String
deriving Repr, DecidableEq

/-- The metadata dictionary attached to each verse document by
DocumentProcessor.create_documents_from_bible_data. -/
structure DocMetadata where
  book : String
  chapter : Nat
  verse : Nat
  reference : String
  translation : String
  testament : String
  book_number : Nat
  chunk_type : String
deriving Repr, DecidableEq

/-- A LangChain Document as the builder creates it: page content plus the
metadata dictionary. -/
structure Document where
  page_content : String
  metadata : DocMetadata
deriving Repr, DecidableEq

/-- The 39-name set old_testament_books of DocumentProcessor._get_testament
(a Python set literal; only membership is ever used). -/
def old_testament_books : List String :=
  ["Genesis", "Exodus", "Leviticus", "Numbers", "Deuteronomy",
   "Joshua", "Judges", "Ruth", "1 Samuel", "2 Samuel",
   "1 Kings", "2 Kings", "1 Chronicles", "2 Chronicles",
   "Ezra", "Nehemiah", "Esther", "Job", "Psalms", "Proverbs",
   "Ecclesiastes", "Song of Solomon", "Isaiah", "Jeremiah",
   "Lamentations", "Ezekiel", "Daniel", "Hosea", "Joel",
   "Amos", "Obadiah", "Jonah", "Micah", "Nahum", "Habakkuk",
   "Zephaniah", "Haggai", "Zechariah", "Malachi"]

/-- DocumentProcessor._get_testament: "Old" when the book is in the fixed
Old Testament set, otherwise "New". -/
def _get_testament (book : String) : String :=
  if book ∈ old_testament_books then "Old" else "New"

/-- The 66-entry book_numbers dictionary of
DocumentProcessor._get_book_number, as an association list in source
order. -/
def book_numbers : List (String × Nat) :=
  [("Genesis", 1), ("Exodus", 2), ("Leviticus", 3), ("Numbers", 4), ("Deuteronomy", 5),
   ("Joshua", 6), ("Judges", 7), ("Ruth", 8), ("1 Samuel", 9), ("2 Samuel", 10),
   ("1 Kings", 11), ("2 Kings", 12), ("1 Chronicles", 13), ("2 Chronicles", 14),
   ("Ezra", 15), ("Nehemiah", 16), ("Esther", 17), ("Job", 18), ("Psalms", 19),
   ("Proverbs", 20), ("Ecclesiastes", 21), ("Song of Solomon", 22), ("Isaiah", 23),
   ("Jeremiah", 24), ("Lamentations", 25), ("Ezekiel", 26), ("Daniel", 27),
   ("Hosea", 28), ("Joel", 29), ("Amos", 30), ("Obadiah", 31), ("Jonah", 32),
   ("Micah", 33), ("Nahum", 34), ("Habakkuk", 35), ("Zephaniah", 36),
   ("Haggai", 37), ("Zechariah", 38), ("Malachi", 39),
   ("Matthew", 40), ("Mark", 41), ("Luke", 42), ("John", 43), ("Acts", 44),
   ("Romans", 45), ("1 Corinthians", 46), ("2 Corinthians", 47), ("Galatians", 48),
   ("Ephesians", 49), ("Philippians", 50), ("Colossians", 51), ("1 Thessalonians", 52),
   ("2 Thessalonians", 53), ("1 Timothy", 54), ("2 Timothy", 55), ("Titus", 56),
   ("Philemon", 57), ("Hebrews", 58), ("James", 59), ("1 Peter", 60), ("2 Peter", 61),
   ("1 John", 62), ("2 John", 63), ("3 John", 64), ("Jude", 65), ("Revelation", 66)]

/-- DocumentProcessor._get_book_number: book_numbers.get(book, 0). -/
def _get_book_number (book : String) : Nat :=
  (book_numbers.lookup book).getD 0

/-- The loop body of create_documents_from_bible_data: the Document built
for one verse record. The reference string is the f-string
"<book> <chapter>:<verse>"; translation is verse.get("translation", "KJV"). -/
def mkVerseDocument (verse : VerseRecord) : Document :=
  { page_content := verse.text
    metadata :=
      { book := verse.book
        chapter := verse.chapter
        verse := verse.verse
        reference := verse.book ++ " " ++ toString verse.chapter ++ ":" ++ toString verse.verse
        translation := verse.translation.getD "KJV"
        testament := _get_testament verse.book
        book_number := _get_book_number verse.book
        chunk_type := "verse" } }

/-- DocumentProcessor.create_documents_from_bible_data: the loop appends one
document per verse record, then the final statement documents.extend(documents)
concatenates the list with itself before returning it. -/
def create_documents_from_bible_data (bible_data : List VerseRecord) : List Document :=
  let documents := bible_data.map mkVerseDocument
  documents ++ documents

/-- One verse of the nested JSON corpus: the objects of a chapter's verses
array, with keys verse and text. -/
structure VerseEntry where
  verse : Nat
  text : String
deriving Repr, DecidableEq

/-- One chapter of the nested JSON corpus: keys chapter and verses. -/
structure ChapterData where
  chapter : Nat
  verses : List VerseEntry
deriving Repr, DecidableEq

/-- One book of the nested JSON corpus: keys name and chapters. -/
structure BookData where
  name : String
  chapters : List ChapterData
deriving Repr, DecidableEq

/-- The nested JSON corpus schema: keys translation and books. -/
structure BibleData where
  translation : String
  books : List BookData
deriving Repr, DecidableEq

/-- BibleDataSeeder.create_sample_bible_data: the minimal fallback corpus,
one Genesis 1:1 verse. -/
def create_sample_bible_data : BibleData :=
  { translation := "KJV"
    books :=
      [{ name := "Genesis"
         chapters :=
           [{ chapter := 1
              verses :=
                [{ verse := 1
                   text := "In the beginning God created the heaven and the earth." }] }] }] }

/-- The triple nested loop shared verbatim by load_kjv_data and the fallback
branch of load_bible_data: start from the empty list and append one flat
verse record per (book, chapter, verse), with translation fixed to "KJV". -/
def flattenBooks (books : List BookData) : List VerseRecord :=
  books.foldl
    (fun acc book =>
      book.chapters.foldl
        (fun acc chapter =>
          chapter.verses.foldl
            (fun acc v =>
              acc ++ [{ book := book.name, chapter := chapter.chapter,
                        verse := v.verse, text := v.text, translation := some "KJV" }])
            acc)
        acc)
    []

/-- The exception raised by load_kjv_data when the corpus file is absent
(FileNotFoundError). -/
inductive SeederError
  | fileNotFound
deriving Repr, DecidableEq

/-- BibleDataSeeder.load_kjv_data. The on-disk resource is modelled as
Option BibleData: none when self.data_path does not exist, in which case the
function raises FileNotFoundError; otherwise it parses the JSON and flattens
the nested structure with the triple loop. -/
def load_kjv_data (resource : Option BibleData) : Except SeederError (List VerseRecord) :=
  match resource with
  | none => .error .fileNotFound
  | some kjv_data => .ok (flattenBooks kjv_data.books)

/-- BibleDataSeeder.load_bible_data: always try load_kjv_data first; on
FileNotFoundError, build create_sample_bible_data and flatten it with the
same triple loop instead of aborting. -/
def load_bible_data (resource : Option BibleData) : List VerseRecord :=
  match load_kjv_data resource with
  | .ok verses => verses
  | .error .fileNotFound => flattenBooks create_sample_bible_data.books

/-- A retrieved fragment as format_docs reads it: the page content and the
reference entry of the metadata dictionary, the latter read by
metadata.get("reference", "Unknown Reference") and so possibly absent. -/
structure RetrievedDoc where
  page_content : String
  reference : Option String
deriving Repr, DecidableEq

/-- The defaulted metadata read metadata.get("reference", "Unknown Reference")
inside format_docs. -/
def getReference (doc : RetrievedDoc) : String :=
  doc.reference.getD "Unknown Reference"

/-- Python string join: sep.join(parts) puts sep between consecutive parts,
nothing before the first or after the last, and returns the empty string on
an empty list. -/
def joinWith (sep : String) : List String → String
  | [] => ""
  | [part] => part
  | part :: part2 :: parts => part ++ sep ++ joinWith sep (part2 :: parts)

/-- format_docs inside BiblicalRAGEngine._create_rag_chain: render each
retrieved document as "[<reference>] <content>" and join the rendered
fragments with "\n\n", in retrieval order. -/
def format_docs (docs : List RetrievedDoc) : String :=
  joinWith "\n\n" (docs.map (fun doc => "[" ++ getReference doc ++ "] " ++ doc.page_content))

/-- The rag_chain assembled by _create_rag_chain, with its three external
collaborators as opaque functions: the retriever, the prompt template
(applied to the formatted context and the question), and the fixed
(deterministic, stubbed) remote model. One model run on a prompt gives the
ordered chunks the model streams and, when the underlying call raises an
exception after those chunks, the message of that exception (none when the
run completes normally); chain.invoke returns the whole completed response,
the concatenation of the streamed chunks, or raises the same exception. -/
structure RAGChain where
  retrieve : String → List RetrievedDoc
  prompt : String → String → String
  llm : String → List String × Option String

/-- The shared prompt-construction path of the chain: format the retrieved
context with format_docs, then render the prompt template on context and
question. -/
def RAGChain.buildPrompt (chain : RAGChain) (question : String) : String :=
  chain.prompt (format_docs (chain.retrieve question)) question

/-- self.rag_chain.invoke(question): the completed response, or the raised
exception as Except.error. -/
def RAGChain.invoke (chain : RAGChain) (question : String) : Except String String :=
  match chain.llm (chain.buildPrompt question) with
  | (chunks, none) => .ok (String.join chunks)
  | (_, some e) => .error e

/-- self.rag_chain.stream(question), consumed to exhaustion: the chunks it
yields, and the exception raised after them when the run fails. -/
def RAGChain.streamRun (chain : RAGChain) (question : String) : List String × Option String :=
  chain.llm (chain.buildPrompt question)

/-- The two ValueError sites of rag_engine.py that the spec taxonomy names:
"RAG chain not initialized" in ask_question and ask_question_stream, and
"No documents provided for indexing" in create_vectorstore. -/
inductive EngineError
  | uninitialized
  | emptyInput
deriving Repr, DecidableEq

/-- The engine state the query paths read: self.rag_chain, none until
create_vectorstore or load_existing_vectorstore has built the chain. -/
structure BiblicalRAGEngine where
  rag_chain : Option RAGChain

/-- BiblicalRAGEngine.ask_question: raise ValueError when rag_chain is unset;
otherwise invoke the chain inside try/except, returning the response, or the
in-band string "Error generating response: <e>" when the invocation raises. -/
def ask_question (engine : BiblicalRAGEngine) (question : String) : Except EngineError String :=
  match engine.rag_chain with
  | none => .error .uninitialized
  | some chain =>
    match chain.invoke question with
    | .ok response => .ok response
    | .error e => .ok ("Error generating response: " ++ e)

/-- BiblicalRAGEngine.ask_question_stream: raise ValueError when rag_chain is
unset; otherwise yield the chunks of chain.stream inside try/except, and when
the stream raises, yield "Error generating response: <e>" as one final
increment. The value is the full ordered sequence of yielded increments. -/
def ask_question_stream (engine : BiblicalRAGEngine) (question : String) :
    Except EngineError (List String) :=
  match engine.rag_chain with
  | none => .error .uninitialized
  | some chain =>
    match chain.streamRun question with
    | (chunks, none) => .ok chunks
    | (chunks, some e) => .ok (chunks ++ ["Error generating response: " ++ e])

/-- BiblicalRAGEngine.create_vectorstore: raise ValueError on an empty
document list before anything is split, embedded or persisted; otherwise
split the documents with the text splitter (an external collaborator, passed
as a function) and build the store from the splits. The store is modelled by
the list of fragments it is built from. -/
def create_vectorstore (split_documents : List Document → List Document)
    (documents : List Document) : Except EngineError (List Document) :=
  if documents.isEmpty then .error .emptyInput
  else .ok (split_documents documents)

/-- The Genesis 1:1 flat verse record, the single record of the fallback
corpus. -/
def genesisRecord : VerseRecord :=
  { book := "Genesis", chapter := 1, verse := 1,
    text := "In the beginning God created the heaven and the earth.",
    translation := some "KJV" }

/-- The Genesis 1:1 fragment as the retriever returns it in the end-to-end
scenario of the spec. -/
def genesisFragment : RetrievedDoc :=
  { page_content := "In the beginning God created the heaven and the earth.",
    reference := some "Genesis 1:1" }

/-- A concrete initialized chain with a stubbed deterministic model that
completes normally, for witnessing the query-path theorems. -/
def stubChain : RAGChain :=
  { retrieve := fun _ => [genesisFragment]
    prompt := fun context question => context ++ "\n\nQuestion: " ++ question
    llm := fun _ => (["In the beginning ", "God created."], none) }

/-- An engine whose rag_chain is the stubbed chain. -/
def readyEngine : BiblicalRAGEngine := { rag_chain := some stubChain }

/-- A concrete initialized chain whose stubbed model raises a provider error
after one streamed chunk. -/
def failChain : RAGChain :=
  { retrieve := fun _ => [genesisFragment]
    prompt := fun context question => context ++ "\n\nQuestion: " ++ question
    llm := fun _ => (["Partial "], some "429 quota exceeded") }

/-- An engine whose rag_chain is the failing stubbed chain. -/
def failEngine : BiblicalRAGEngine := { rag_chain := some failChain }

/-- An engine before create_vectorstore or load_existing_vectorstore has run:
rag_chain is unset. -/
def freshEngine : BiblicalRAGEngine := { rag_chain := none }

/-- A successful association-list lookup pinpoints an entry of the list. -/
theorem mem_of_lookup_eq_some {α β : Type} [BEq α] [LawfulBEq α]
    {l : List (α × β)} {a : α} {b : β} (h : l.lookup a = some b) : (a, b) ∈ l := by
  induction l with
  | nil => simp [List.lookup] at h
  | cons p t ih =>
    rw [List.lookup] at h
    by_cases hab : a == p.1
    · simp [hab] at h
      rcases p with ⟨k, v⟩
      simp at hab
      simp [hab, ← h]
    · simp [hab] at h
      exact List.mem_cons_of_mem _ (ih h)

/-- Lookup of a key absent from the association list gives none. -/
theorem lookup_eq_none_of_not_mem {α β : Type} [BEq α] [LawfulBEq α]
    {l : List (α × β)} {a : α} (h : a ∉ l.map Prod.fst) : l.lookup a = none := by
  induction l with
  | nil => rfl
  | cons p t ih =>
    rw [List.map_cons, List.mem_cons] at h
    push_neg at h
    rw [List.lookup]
    have hfalse : (a == p.1) = false := by
      rcases h with ⟨h1, _⟩
      exact beq_eq_false_iff_ne.mpr h1
    simp only [hfalse]
    exact ih (by
      rcases h with ⟨_, h2⟩
      exact h2)

/-- Lookup of a key present in the association list succeeds. -/
theorem lookup_isSome_of_mem {α β : Type} [BEq α] [LawfulBEq α]
    {l : List (α × β)} {a : α} (h : a ∈ l.map Prod.fst) :
    ∃ b, l.lookup a = some b := by
  induction l with
  | nil => simp at h
  | cons p t ih =>
    rw [List.map_cons, List.mem_cons] at h
    rw [List.lookup]
    by_cases hab : a = p.1
    · refine ⟨p.2, ?_⟩
      have : (a == p.1) = true := beq_iff_eq.mpr hab
      simp only [this]
    · have hfalse : (a == p.1) = false := beq_eq_false_iff_ne.mpr hab
      simp only [hfalse]
      rcases h with h1 | h2
      · exact absurd h1 hab
      · exact ih h2

/-- A fold that appends one image per element is the map appended to the
accumulator. -/
theorem foldl_append_one {α β : Type} (f : α → β) (l : List α) (acc : List β) :
    l.foldl (fun acc x => acc ++ [f x]) acc = acc ++ l.map f := by
  induction l generalizing acc with
  | nil => simp
  | cons x t ih => simp [ih]

/-- A fold that appends a block per element is the flattened map appended to
the accumulator. -/
theorem foldl_append_chunk {α β : Type} (g : α → List β) (l : List α) (acc : List β) :
    l.foldl (fun acc x => acc ++ g x) acc = acc ++ l.flatMap g := by
  induction l generalizing acc with
  | nil => simp
  | cons x t ih => simp [ih]

/-- The append-only triple loop of the seeder equals the nested flatten of
the corpus: books in order, chapters in order within each book, verses in
order within each chapter. -/
theorem flattenBooks_eq (books : List BookData) :
    flattenBooks books =
      books.flatMap (fun book => book.chapters.flatMap (fun chapter =>
        chapter.verses.map (fun v =>
          { book := book.name, chapter := chapter.chapter,
            verse := v.verse, text := v.text, translation := some "KJV" }))) := by
  unfold flattenBooks
  simp only [foldl_append_one, foldl_append_chunk, List.nil_append]

/-- C1: the claim says the Document Builder maps each verse record to exactly
one retrievable document, so the output has exactly one document per input
record. The code does not: after building one document per record, it runs
documents.extend(documents), so on the single Genesis 1:1 record it returns
TWO documents (the same document twice), and in general twice as many
documents as records. -/
theorem create_documents_duplicates_each_record :
    (create_documents_from_bible_data [genesisRecord]).length = 2 ∧
    create_documents_from_bible_data [genesisRecord] =
      [mkVerseDocument genesisRecord, mkVerseDocument genesisRecord] ∧
    ∀ bible_data : List VerseRecord,
      (create_documents_from_bible_data bible_data).length = 2 * bible_data.length := by
  refine ⟨rfl, rfl, fun bible_data => ?_⟩
  simp [create_documents_from_bible_data, two_mul]

/-- C2: format_docs renders each retrieved fragment as "[<reference>] <content>"
from the reference metadata and the page content, joins consecutive fragments
with exactly one blank line ("\n\n"), preserves retrieval order, and on the
single Genesis 1:1 document yields exactly
"[Genesis 1:1] In the beginning God created the heaven and the earth.". -/
theorem format_docs_renders_and_joins_fragments :
    (∀ doc, format_docs [doc] = "[" ++ getReference doc ++ "] " ++ doc.page_content) ∧
    (∀ doc doc2 docs, format_docs (doc :: doc2 :: docs) =
      ("[" ++ getReference doc ++ "] " ++ doc.page_content) ++ "\n\n" ++
        format_docs (doc2 :: docs)) ∧
    format_docs [genesisFragment] =
      "[Genesis 1:1] In the beginning God created the heaven and the earth." := by
  refine ⟨fun doc => rfl, fun doc doc2 docs => rfl, by decide⟩

/-- C3: on an initialized engine whose fixed (deterministic, stubbed) model
completes normally, concatenating the increments yielded by
ask_question_stream equals the single string returned by ask_question, and
that string is the joined model output on the one shared prompt built by the
common rag_chain path (retrieve, format_docs, prompt template). -/
theorem ask_question_stream_concat_eq_ask_question
    (engine : BiblicalRAGEngine) (chain : RAGChain) (question : String)
    (hinit : engine.rag_chain = some chain)
    (hok : (chain.llm (chain.buildPrompt question)).2 = none) :
    Except.map String.join (ask_question_stream engine question) =
      ask_question engine question ∧
    ask_question engine question =
      .ok (String.join (chain.llm (chain.buildPrompt question)).1) := by
  obtain ⟨rc⟩ := engine
  have hrc : rc = some chain := hinit
  subst hrc
  rcases hres : chain.llm (chain.buildPrompt question) with ⟨chunks, err⟩
  have hok2 : err = none := by
    rw [hres] at hok
    exact hok
  subst hok2
  simp only [ask_question, ask_question_stream, RAGChain.invoke, RAGChain.streamRun, hres]
  simp [Except.map]

/-- C3 witness: the equivalence at the concrete stubbed engine and the
question "creation". -/
theorem ask_question_stream_concat_eq_ask_question_witness :
    Except.map String.join (ask_question_stream readyEngine "creation") =
      ask_question readyEngine "creation" ∧
    ask_question readyEngine "creation" =
      .ok (String.join (stubChain.llm (stubChain.buildPrompt "creation")).1) :=
  ask_question_stream_concat_eq_ask_question readyEngine stubChain "creation" rfl rfl

/-- C4: on an initialized engine, when the model invocation raises with
message e, ask_question does not propagate the exception but returns the
in-band string "Error generating response: <e>" as the answer, and
ask_question_stream yields that string as its final increment after the
chunks already streamed, likewise without raising. -/
theorem model_error_returned_inband
    (engine : BiblicalRAGEngine) (chain : RAGChain) (question e : String)
    (hinit : engine.rag_chain = some chain)
    (herr : (chain.llm (chain.buildPrompt question)).2 = some e) :
    ask_question engine question = .ok ("Error generating response: " ++ e) ∧
    ask_question_stream engine question =
      .ok ((chain.llm (chain.buildPrompt question)).1 ++
        ["Error generating response: " ++ e]) := by
  obtain ⟨rc⟩ := engine
  have hrc : rc = some chain := hinit
  subst hrc
  rcases hres : chain.llm (chain.buildPrompt question) with ⟨chunks, err⟩
  have herr2 : err = some e := by
    rw [hres] at herr
    exact herr
  subst herr2
  simp only [ask_question, ask_question_stream, RAGChain.invoke, RAGChain.streamRun, hres]
  exact ⟨trivial, trivial⟩

/-- C4 witness: the in-band conversion at the concrete failing stubbed
engine. -/
theorem model_error_returned_inband_witness :
    ask_question failEngine "creation" =
      .ok ("Error generating response: " ++ "429 quota exceeded") ∧
    ask_question_stream failEngine "creation" =
      .ok ((failChain.llm (failChain.buildPrompt "creation")).1 ++
        ["Error generating response: " ++ "429 quota exceeded"]) :=
  model_error_returned_inband failEngine failChain "creation" "429 quota exceeded" rfl rfl

/-- C5: with rag_chain unset, both ask_question and ask_question_stream fail
with the raised typed error (the uninitialized-pipeline ValueError of the
source, the UninitializedError of the spec taxonomy) before reaching the
try/except, so the in-band conversion never applies and no successful or
empty result is returned. -/
theorem uninitialized_chain_raises
    (engine : BiblicalRAGEngine) (question : String)
    (h : engine.rag_chain = none) :
    ask_question engine question = .error .uninitialized ∧
    ask_question_stream engine question = .error .uninitialized := by
  obtain ⟨rc⟩ := engine
  have hrc : rc = none := h
  subst hrc
  exact ⟨rfl, rfl⟩

/-- C5 witness: both query paths raise on the concrete engine that never
built a chain. -/
theorem uninitialized_chain_raises_witness :
    ask_question freshEngine "creation" = .error .uninitialized ∧
    ask_question_stream freshEngine "creation" = .error .uninitialized :=
  uninitialized_chain_raises freshEngine "creation" rfl

/-- C6: for the empty document list, create_vectorstore raises the
empty-input error regardless of the splitter, before any store is created or
persisted; and conversely any successfully built store comes from a
non-empty document list, so an empty index is never silently built. -/
theorem create_vectorstore_rejects_empty_input
    (split_documents : List Document → List Document) :
    create_vectorstore split_documents [] = .error .emptyInput ∧
    ∀ documents result,
      create_vectorstore split_documents documents = .ok result → documents ≠ [] := by
  refine ⟨rfl, fun documents result h => ?_⟩
  intro hnil
  subst hnil
  simp [create_vectorstore] at h

/-- C7: when the corpus resource is missing, load_bible_data catches the
file-not-found failure of load_kjv_data and returns the single-verse
placeholder corpus: exactly one record, Genesis 1:1 with the KJV creation
text. -/
theorem load_bible_data_falls_back_to_sample :
    load_bible_data none = [genesisRecord] := by decide

/-- C8: for every well-formed nested corpus, load_kjv_data returns the flat
list with exactly one verse record per (book, chapter, verse) triple in
source order (books, then chapters within a book, then verses within a
chapter, no re-sorting), and its length equals the sum of verse counts over
all chapters of all books. -/
theorem load_kjv_data_flat_in_source_order (corpus : BibleData) :
    load_kjv_data (some corpus) =
      .ok (corpus.books.flatMap (fun book => book.chapters.flatMap (fun chapter =>
        chapter.verses.map (fun v =>
          { book := book.name, chapter := chapter.chapter,
            verse := v.verse, text := v.text, translation := some "KJV" })))) ∧
    (flattenBooks corpus.books).length =
      (corpus.books.map (fun book =>
        (book.chapters.map (fun chapter => chapter.verses.length)).sum)).sum := by
  constructor
  · show Except.ok (flattenBooks corpus.books) = _
    rw [flattenBooks_eq]
  · rw [flattenBooks_eq]
    simp [List.length_flatMap, Function.comp_def, List.map_map, List.length_map]

/-- C9: for every verse record, the built document has reference exactly
"<book> <chapter>:<verse>"; testament "Old" exactly when the book is one of
the 39 fixed Old Testament names and "New" for every other name; and a
book_number that is the fixed 66-entry lookup value for recognized names and
0 for unrecognized ones. -/
theorem verse_document_metadata_correct (v : VerseRecord) :
    (mkVerseDocument v).metadata.reference =
        v.book ++ " " ++ toString v.chapter ++ ":" ++ toString v.verse ∧
    ((mkVerseDocument v).metadata.testament = "Old" ↔ v.book ∈ old_testament_books) ∧
    (v.book ∉ old_testament_books → (mkVerseDocument v).metadata.testament = "New") ∧
    old_testament_books.length = 39 ∧
    ((v.book, (mkVerseDocument v).metadata.book_number) ∈ book_numbers ∨
      (v.book ∉ book_numbers.map Prod.fst ∧ (mkVerseDocument v).metadata.book_number = 0)) ∧
    book_numbers.length = 66 := by
  refine ⟨rfl, ?_, ?_, by decide, ?_, by decide⟩
  · show _get_testament v.book = "Old" ↔ _
    unfold _get_testament
    by_cases h : v.book ∈ old_testament_books
    · rw [if_pos h]
      simp [h]
    · rw [if_neg h]
      constructor
      · intro hc
        exact absurd hc (by decide)
      · intro hm
        exact absurd hm h
  · intro h
    show _get_testament v.book = "New"
    unfold _get_testament
    rw [if_neg h]
  · simp only [mkVerseDocument, _get_book_number]
    cases hl : book_numbers.lookup v.book with
    | none =>
      right
      refine ⟨?_, rfl⟩
      intro hmem
      rcases lookup_isSome_of_mem hmem with ⟨n, hn⟩
      rw [hl] at hn
      exact Option.noConfusion hn
    | some n =>
      left
      simpa using mem_of_lookup_eq_some hl

/-- C10: for every book name, the two static lookup tables agree:
_get_testament gives "Old" exactly when _get_book_number gives a value
between 1 and 39, and _get_book_number always gives either 0 or a value
between 1 and 66. -/
theorem testament_and_book_number_consistent (b : String) :
    (_get_testament b = "Old" ↔ 1 ≤ _get_book_number b ∧ _get_book_number b ≤ 39) ∧
    (_get_book_number b = 0 ∨ (1 ≤ _get_book_number b ∧ _get_book_number b ≤ 66)) := by
  have hOT : ∀ x ∈ old_testament_books,
      1 ≤ _get_book_number x ∧ _get_book_number x ≤ 39 := by decide
  have hNums : ∀ p ∈ book_numbers, 1 ≤ p.2 ∧ p.2 ≤ 66 := by decide
  have hOld : ∀ p ∈ book_numbers, p.2 ≤ 39 → p.1 ∈ old_testament_books := by decide
  constructor
  · constructor
    · intro h
      have hb : b ∈ old_testament_books := by
        unfold _get_testament at h
        by_cases hm : b ∈ old_testament_books
        · exact hm
        · rw [if_neg hm] at h
          exact absurd h (by decide)
      exact hOT b hb
    · rintro ⟨h1, h39⟩
      unfold _get_book_number at h1 h39
      cases hl : book_numbers.lookup b with
      | none =>
        rw [hl] at h1
        simp at h1
      | some n =>
        rw [hl] at h1 h39
        simp at h1 h39
        have hb := hOld (b, n) (mem_of_lookup_eq_some hl) h39
        show _get_testament b = "Old"
        unfold _get_testament
        rw [if_pos hb]
  · unfold _get_book_number
    cases hl : book_numbers.lookup b with
    | none =>
      left
      rfl
    | some n =>
      right
      have hn := hNums (b, n) (mem_of_lookup_eq_some hl)
      simpa using hn

end ChatZBible
